import Mathlib

/-!
Shallow embedding of the detection-and-capture pipeline of the rakko
repository (instagram-live-recorder and instagram-story-saver), covering:

* `check_disk_space` (recorder `stream_recorder.py` and saver
  `story_downloader.py`; the two copies are line-for-line identical in the
  logic modelled here),
* URL validation (`validate_stream_url`, `validate_media_url`),
* `StreamRecorder` admission / retry / completion
  (`start_recording`, `_retry_recording`, the worker `finally` block),
* the worker failure handler and retry loop of `_record_stream`
  with `_should_retry`,
* `StoryDownloader` admission / backlog queue / dispatch
  (`download`, `_start_download`, `_process_queue`),
* `LiveMonitorV2.check_all_lives` with `_get_lives_from_reels_tray`,
  `_handle_live_found`, `_handle_ended_lives`,
* `DownloadHistory` (`is_downloaded`, `mark_downloaded`, `cleanup`).

Python dictionaries are modelled as association lists preserving insertion
order (assignment of a fresh key appends at the end; assignment of a present
key replaces in place; `del` removes the entry).  Wall-clock instants are
modelled as integers (seconds); `shutil.disk_usage` results are modelled as
an `Option ℚ` of free bytes, `none` standing for the query raising.
-/

namespace Rakko

/-- Ordered association list lookup (Python `d[k]` / `k in d`). -/
def alLookup {β : Type} (k : String) : List (String × β) → Option β
  | [] => none
  | (k', v) :: rest => if k' = k then some v else alLookup k rest

/-- Python `d[k] = v`: replace in place if present, else append. -/
def alInsert {β : Type} (k : String) (v : β) : List (String × β) → List (String × β)
  | [] => [(k, v)]
  | (k', v') :: rest => if k' = k then (k, v) :: rest else (k', v') :: alInsert k v rest

/-- Python `del d[k]` (guarded by `k in d` at every call site we model). -/
def alErase {β : Type} (k : String) : List (String × β) → List (String × β)
  | [] => []
  | (k', v') :: rest => if k' = k then alErase k rest else (k', v') :: alErase k rest

/-- Python string truthiness fallback `a or b` for strings. -/
def strOr (a b : String) : String := if a = "" then b else a

/-!
## Disk-space preflight

`check_disk_space(path, min_space_mb)` in both
`src/recorder/stream_recorder.py` and `src/downloader/story_downloader.py`:
walk up to the nearest existing ancestor, query `shutil.disk_usage`, compute
`free_mb = usage.free / (1024*1024)` and return `False` iff
`free_mb < min_space_mb`; any exception during the check is caught and the
function returns `True` ("확인 실패 시 일단 진행").  The filesystem query is
modelled by its observed outcome: `none` when the query raises, `some free`
(free bytes) when it succeeds.
-/

def check_disk_space (usage : Option ℚ) (min_space_mb : ℚ) : Bool :=
  match usage with
  | none => true
  | some freeBytes =>
    let free_mb := freeBytes / (1024 * 1024)
    if free_mb < min_space_mb then false else true

/-!
## Media-URL validation

`urlparse` is modelled for the fragment the validators rely on: `scheme` is
the text before `"://"` and `netloc` the host part after it.  Both validators
raise `SecurityError` on a bad URL; we model raising as `Except.error` with
the message.
-/

/-- Does `l` start with `pat`? (Python `str.startswith` on char lists.) -/
def chStartsWith : List Char → List Char → Bool
  | [], _ => true
  | _ :: _, [] => false
  | p :: ps, c :: cs => p = c && chStartsWith ps cs

/-- Does `l` end with `pat`? (Python `str.endswith` on char lists.) -/
def chEndsWith (pat l : List Char) : Bool :=
  chStartsWith pat.reverse l.reverse

/-- Split at the first `"://"`: the characters before it and after it. -/
def findSchemeSep : List Char → Option (List Char × List Char)
  | [] => none
  | c :: rest =>
    if chStartsWith [':', '/', '/'] (c :: rest) then some ([], rest.drop 2)
    else
      match findSchemeSep rest with
      | some (pre, post) => some (c :: pre, post)
      | none => none

/-- ASCII lowering (Python `str.lower` on the characters these URLs use). -/
def chToLower (c : Char) : Char :=
  if 'A' ≤ c ∧ c ≤ 'Z' then Char.ofNat (c.toNat + 32) else c

def urlScheme (url : String) : String :=
  match findSchemeSep url.data with
  | some (pre, _) => String.mk pre
  | none => ""

def urlNetloc (url : String) : String :=
  match findSchemeSep url.data with
  | some (_, post) => String.mk (post.takeWhile (fun c => c ≠ '/'))
  | none => ""

def strToLower (s : String) : String := String.mk (s.data.map chToLower)

def strEndsWith (s suffix : String) : Bool := chEndsWith suffix.data s.data

def allowed_domains : List String :=
  ["instagram.com", "cdninstagram.com", "fbcdn.net", "akamaized.net", "akamaihd.net"]

def dangerous_chars : List Char :=
  [';', '|', '&', '$', Char.ofNat 96, Char.ofNat 10, Char.ofNat 13]

/-- `validate_stream_url` of `src/recorder/stream_recorder.py`: https/http
only, Instagram-related domains only (suffix match on the lowered netloc),
and none of the dangerous shell characters anywhere in the URL. -/
def validate_stream_url (url : String) : Except String Unit :=
  if url = "" then .error "스트림 URL이 비어있습니다"
  else
    let scheme := urlScheme url
    if scheme ≠ "https" ∧ scheme ≠ "http" then .error "지원하지 않는 프로토콜"
    else
      let domain := strToLower (urlNetloc url)
      if ¬ allowed_domains.any (fun allowed => strEndsWith domain allowed) then
        .error "허용되지 않은 도메인"
      else if dangerous_chars.any (fun c => url.data.contains c) then
        .error "URL에 허용되지 않은 문자 포함"
      else .ok ()

/-- `validate_media_url` of `src/downloader/story_downloader.py`: https only,
Instagram CDN domains only (no dangerous-character loop in this copy). -/
def validate_media_url (url : String) : Except String Unit :=
  if url = "" then .error "URL이 비어있습니다"
  else
    let scheme := urlScheme url
    if scheme ≠ "https" then .error "HTTPS만 허용됩니다"
    else
      let domain := strToLower (urlNetloc url)
      if ¬ allowed_domains.any (fun allowed => strEndsWith domain allowed) then
        .error "허용되지 않은 도메인"
      else .ok ()

/-!
## Live-recorder data model (`stream_recorder.py`, `live_monitor.py`)
-/

/-- `LiveBroadcast` (the fields the recorder and monitor logic reads). -/
structure LiveBroadcast where
  broadcast_id : String
  username : String
  viewer_count : Nat
  dash_playback_url : String
  dash_abr_playback_url : String
deriving DecidableEq, Repr

/-- `RecordingTask` (timestamps abstracted to integer seconds). -/
structure RecordingTask where
  broadcast : LiveBroadcast
  output_path : String
  started_at : Option Int := none
  ended_at : Option Int := none
  status : String := "pending"
  error_message : String := ""
  file_size : Nat := 0
  retry_count : Nat := 0
  max_retries : Nat := 3
deriving DecidableEq, Repr

/-- The `StreamRecorder` state the admission/retry/completion paths touch.
`submitted` counts calls to `self._executor.submit` (worker spawns). -/
structure StreamRecorder where
  max_concurrent : Nat
  max_retries : Nat
  min_disk_space_mb : ℚ
  ytdlp_available : Bool
  ffmpeg_available : Bool
  active_recordings : List (String × RecordingTask) := []
  completed_recordings : List RecordingTask := []
  submitted : Nat := 0
deriving DecidableEq, Repr

/-- `StreamRecorder.start_recording`.  `diskFree` is the observed
`shutil.disk_usage` outcome for the output directory and `outPath` the path
`_generate_output_path` would produce.  Returns the new state and the
returned `Optional[RecordingTask]`; the state's `submitted` increases exactly
when `self._executor.submit(self._record_stream, task)` runs. -/
def start_recording (s : StreamRecorder) (b : LiveBroadcast) (diskFree : Option ℚ)
    (outPath : String) : StreamRecorder × Option RecordingTask :=
  if ¬ (s.ytdlp_available ∨ s.ffmpeg_available) then (s, none)
  else
    match alLookup b.broadcast_id s.active_recordings with
    | some t => (s, some t)
    | none =>
      if s.max_concurrent ≤ s.active_recordings.length then (s, none)
      else if ¬ check_disk_space diskFree s.min_disk_space_mb then (s, none)
      else
        let task : RecordingTask :=
          { broadcast := b, output_path := outPath, max_retries := s.max_retries }
        ({ s with
            active_recordings := s.active_recordings ++ [(b.broadcast_id, task)],
            submitted := s.submitted + 1 },
         some task)

/-- `StreamRecorder._retry_recording` (the re-admission running after the
`retry_delay` sleep): reset the task to a fresh pending attempt, skip if the
broadcast is already being recorded again, otherwise insert it into
`active_recordings` — with no ceiling check — and run `_record_stream`. -/
def retry_recording (s : StreamRecorder) (t : RecordingTask) (newPath : String) :
    StreamRecorder :=
  let t' := { t with output_path := newPath, status := "pending", error_message := "",
                     started_at := none, ended_at := none }
  match alLookup t.broadcast.broadcast_id s.active_recordings with
  | some _ => s
  | none =>
    { s with active_recordings :=
        s.active_recordings ++ [(t.broadcast.broadcast_id, t')] }

/-- The worker's `finally` block in `_record_stream`: drop the broadcast from
`active_recordings` and append the task to the bounded completed history. -/
def finish_recording (s : StreamRecorder) (t : RecordingTask) : StreamRecorder :=
  { s with
      active_recordings := alErase t.broadcast.broadcast_id s.active_recordings,
      completed_recordings := s.completed_recordings ++ [t] }

/-- Top-level recorder operations interleaved by the scheduler: admissions
(`start_recording`), worker completions (the `finally` block), and retry
re-admissions (`_retry_recording`). -/
inductive RecOp where
  | start (b : LiveBroadcast) (diskFree : Option ℚ) (outPath : String)
  | finish (t : RecordingTask)
  | retryDispatch (t : RecordingTask) (newPath : String)
deriving Repr

def RecOp.isRetryDispatch : RecOp → Bool
  | .retryDispatch _ _ => true
  | _ => false

def recStep (s : StreamRecorder) : RecOp → StreamRecorder
  | .start b diskFree outPath => (start_recording s b diskFree outPath).1
  | .finish t => finish_recording s t
  | .retryDispatch t newPath => retry_recording s t newPath

def recRun (s : StreamRecorder) : List RecOp → StreamRecorder
  | [] => s
  | op :: ops => recRun (recStep s op) ops

/-!
## Recorder worker: failure classification and retry loop

Exceptions escaping one recording attempt in `_record_stream`, by the
`except` clauses that catch them: `DiskSpaceError` (its own branch), and
everything else (`DependencyError`, `RecordingError`, any other `Exception`)
in the generic branch.
-/

inductive RecError where
  | diskSpace (msg : String)
  | dependency (msg : String)
  | generic (msg : String)
deriving DecidableEq, Repr

def RecError.msg : RecError → String
  | .diskSpace m => m
  | .dependency m => m
  | .generic m => m

def RecError.isDiskSpace : RecError → Bool
  | .diskSpace _ => true
  | _ => false

def RecError.isDependency : RecError → Bool
  | .dependency _ => true
  | _ => false

/-- `StreamRecorder._should_retry`: refuse once `retry_count >= max_retries`,
refuse disk-space and dependency errors; every other error (URL-absent,
network, anything else) is retryable. -/
def should_retry (retry_count max_retries : Nat) (e : RecError) : Bool :=
  if max_retries ≤ retry_count then false
  else if e.isDiskSpace then false
  else if e.isDependency then false
  else true

/-- Events `_record_stream` emits via `self._emit` (one event = one emission,
fanned out to however many registered listeners). -/
inductive REvent where
  | start
  | complete
  | retry
  | failed
deriving DecidableEq, Repr

/-- The two `except` branches of `_record_stream`: returns the updated task
and the events emitted on this attempt.  The `DiskSpaceError` branch stores
an untruncated prefixed message and fails; the generic branch stores
`str(e)[:500]`, then either schedules a retry (incrementing `retry_count`)
or fails. -/
def handle_failure (t : RecordingTask) (e : RecError) : RecordingTask × List REvent :=
  match e with
  | .diskSpace m =>
    ({ t with status := "failed", error_message := "디스크 공간 부족: " ++ m }, [.failed])
  | e' =>
    let t' := { t with status := "failed", error_message := e'.msg.take 500 }
    if should_retry t'.retry_count t'.max_retries e' then
      ({ t' with retry_count := t'.retry_count + 1 }, [.retry])
    else (t', [.failed])

/-- One attempt's outcome: the transfer finished normally, or raised. -/
inductive AttemptOutcome where
  | ok
  | fail (e : RecError)
deriving Repr

/-- The task-level retry cycle, composing `_record_stream`'s outcome branches
with `_schedule_retry` / `_retry_recording`: each attempt emits
`on_recording_start`, then either completes, fails terminally
(`DiskSpaceError`, or `_should_retry` refusing), or increments `retry_count`,
emits `on_recording_retry` and runs a fresh attempt.  `outcomes n` is how
attempt number `n` terminates.  Returns the final task and all events
emitted across the attempts. -/
def runTask (outcomes : Nat → AttemptOutcome) (t : RecordingTask) (attempt : Nat) :
    RecordingTask × List REvent :=
  match outcomes attempt with
  | .ok => ({ t with status := "completed" }, [.start, .complete])
  | .fail (.diskSpace m) =>
    ({ t with status := "failed", error_message := "디스크 공간 부족: " ++ m },
     [.start, .failed])
  | .fail e =>
    let tf : RecordingTask := { t with status := "failed", error_message := e.msg.take 500 }
    if h : should_retry t.retry_count t.max_retries e = true then
      let rest := runTask outcomes
        { tf with retry_count := t.retry_count + 1, status := "pending",
                  error_message := "" } (attempt + 1)
      (rest.1, .start :: .retry :: rest.2)
    else (tf, [.start, .failed])
termination_by t.max_retries + 1 - t.retry_count
decreasing_by
  simp only [should_retry] at h
  by_cases hc : t.max_retries ≤ t.retry_count
  · simp [hc] at h
  · simp only [Nat.not_le] at hc
    omega

/-!
## Story-saver data model (`story_monitor.py`, `story_downloader.py`)

`StoryItem`'s optional URL fields default to `None`; Python's truthiness
tests (`if self.video_url`, `or`-chains) treat `None` and `""` alike, so the
fields are modelled as plain strings with `""` standing for absent.
-/

structure StoryItem where
  story_id : String
  username : String
  media_type : Nat
  video_url : String := ""
  thumbnail_url : String := ""
  image_url : String := ""
deriving DecidableEq, Repr

def StoryItem.is_video (s : StoryItem) : Bool := s.media_type = 2

/-- `StoryItem.media_url`: the video URL for a video story when present,
else `image_url or thumbnail_url or ""`. -/
def StoryItem.media_url (s : StoryItem) : String :=
  if s.is_video ∧ s.video_url ≠ "" then s.video_url
  else strOr s.image_url s.thumbnail_url

structure DownloadTask where
  story : StoryItem
  output_path : String
  started_at : Option Int := none
  ended_at : Option Int := none
  status : String := "pending"
  error_message : String := ""
  file_size : Nat := 0
deriving DecidableEq, Repr

/-- The `StoryDownloader` state its admission/queue/completion paths touch.
`submitted` counts calls to `self._executor.submit`. -/
structure StoryDownloader where
  max_concurrent : Nat
  min_disk_space_mb : ℚ
  active_downloads : List (String × DownloadTask) := []
  completed_downloads : List DownloadTask := []
  pending_queue : List StoryItem := []
  submitted : Nat := 0
deriving DecidableEq, Repr

/-- `StoryDownloader._start_download`: disk preflight, URL presence check,
then create the task, insert it into `active_downloads` and submit the
worker. -/
def start_download (s : StoryDownloader) (story : StoryItem) (diskFree : Option ℚ)
    (outPath : String) : StoryDownloader × Option DownloadTask :=
  if ¬ check_disk_space diskFree s.min_disk_space_mb then (s, none)
  else if story.media_url = "" then (s, none)
  else
    let task : DownloadTask := { story := story, output_path := outPath }
    ({ s with
        active_downloads := s.active_downloads ++ [(story.story_id, task)],
        submitted := s.submitted + 1 },
     some task)

/-- `StoryDownloader.download`: idempotent re-admission for an active id;
at the concurrency ceiling, append to the pending queue unless the id is
already queued; otherwise `_start_download`. -/
def download (s : StoryDownloader) (story : StoryItem) (diskFree : Option ℚ)
    (outPath : String) : StoryDownloader × Option DownloadTask :=
  match alLookup story.story_id s.active_downloads with
  | some t => (s, some t)
  | none =>
    if s.max_concurrent ≤ s.active_downloads.length then
      if s.pending_queue.any (fun q => q.story_id = story.story_id) then (s, none)
      else ({ s with pending_queue := s.pending_queue ++ [story] }, none)
    else start_download s story diskFree outPath

/-- One wake-up of the `_process_queue` worker: if a slot is free and the
queue is nonempty, pop the head and `_start_download` it. -/
def process_queue_step (s : StoryDownloader) (diskFree : Option ℚ) (outPath : String) :
    StoryDownloader :=
  if s.max_concurrent ≤ s.active_downloads.length then s
  else
    match s.pending_queue with
    | [] => s
    | story :: rest => (start_download { s with pending_queue := rest } story diskFree outPath).1

/-- The worker's `finally` block in `_download_file`: drop the story from
`active_downloads`, append the task to the completed history. -/
def finish_download (s : StoryDownloader) (t : DownloadTask) : StoryDownloader :=
  { s with
      active_downloads := alErase t.story.story_id s.active_downloads,
      completed_downloads := s.completed_downloads ++ [t] }

/-- Top-level downloader operations interleaved by the scheduler. -/
inductive DownOp where
  | start (story : StoryItem) (diskFree : Option ℚ) (outPath : String)
  | dispatch (diskFree : Option ℚ) (outPath : String)
  | finish (t : DownloadTask)
deriving Repr

def downStep (s : StoryDownloader) : DownOp → StoryDownloader
  | .start story diskFree outPath => (download s story diskFree outPath).1
  | .dispatch diskFree outPath => process_queue_step s diskFree outPath
  | .finish t => finish_download s t

def downRun (s : StoryDownloader) : List DownOp → StoryDownloader
  | [] => s
  | op :: ops => downRun (downStep s op) ops

/-!
## Story-saver worker (`_download_file`)

Events and failure handling of `_download_file`.  Unlike the recorder, a URL
failing `validate_media_url` is re-raised as `DownloadError("보안 검증 실패: ...")`
inside the `try`, so the transfer (`_download_with_retry`) is never invoked
for it; and there is no task-level retry — every failure is terminal.
-/

inductive DEvent where
  | start
  | complete
  | failed
deriving DecidableEq, Repr

inductive DownError where
  | diskSpace (msg : String)
  | generic (msg : String)
deriving DecidableEq, Repr

/-- How the transfer of one story terminates, were it invoked. -/
inductive TransferOutcome where
  | ok (size : Nat)
  | fail (e : DownError)
deriving Repr

/-- The body of `_download_file` for task `t`: returns the finished task,
the emitted events, and whether `_download_with_retry` (the transfer) was
invoked. -/
def download_file (t : DownloadTask) (transfer : TransferOutcome) :
    DownloadTask × List DEvent × Bool :=
  let t0 : DownloadTask := { t with status := "downloading" }
  match validate_media_url t.story.media_url with
  | .error e =>
    ({ t0 with status := "failed",
               error_message := ("보안 검증 실패: " ++ e).take 500 },
     [.start, .failed], false)
  | .ok _ =>
    match transfer with
    | .ok size =>
      ({ t0 with status := "completed", file_size := size }, [.start, .complete], true)
    | .fail (.diskSpace m) =>
      ({ t0 with status := "failed", error_message := "디스크 공간 부족: " ++ m },
       [.start, .failed], true)
    | .fail (.generic m) =>
      ({ t0 with status := "failed", error_message := m.take 500 },
       [.start, .failed], true)

/-!
## Live monitor (`live_monitor.py`, `LiveMonitorV2`)

The reels-tray fetch (`self.client.private_request("feed/reels_tray/")`) is
modelled by its outcome: `.ok` with the decoded broadcast list, `.error`
when the request raises.  Crucially, `_get_lives_from_reels_tray` catches
every exception itself and returns `[]`, so no exception from the fetch ever
reaches the `except` clauses of `LiveMonitorV2.check_all_lives` (and
`_parse_broadcast` and `_emit` swallow their own exceptions too): the
per-target fallback `super().check_all_lives()` is unreachable from a
tray-fetch failure.
-/

structure RawBroadcast where
  id : String
  username : String
  viewer_count : Nat := 0
  dash_playback_url : String := ""
  dash_abr_playback_url : String := ""
deriving DecidableEq, Repr

structure MonitorState where
  active_lives : List (String × LiveBroadcast) := []
  total_checks : Nat := 0
  total_lives_found : Nat := 0
deriving DecidableEq, Repr

inductive MonEvent where
  | live_start (broadcast_id : String)
  | live_end (broadcast_id : String)
deriving DecidableEq, Repr

/-- `LiveMonitorV2._get_lives_from_reels_tray`: return the broadcasts on
success; on any exception, log and return the empty list. -/
def get_lives_from_reels_tray (fetch : Except String (List RawBroadcast)) :
    List RawBroadcast :=
  match fetch with
  | .ok broadcasts => broadcasts
  | .error _ => []

/-- `LiveMonitorV2._parse_broadcast`: reject a missing username, else build
the `LiveBroadcast`. -/
def parse_broadcast (data : RawBroadcast) : Option LiveBroadcast :=
  if data.username = "" then none
  else some
    { broadcast_id := data.id, username := data.username,
      viewer_count := data.viewer_count,
      dash_playback_url := data.dash_playback_url,
      dash_abr_playback_url := data.dash_abr_playback_url }

/-- `LiveMonitor._handle_live_found`: a known broadcast only has its volatile
viewer count updated in place (no event); a new one is inserted and fires
`on_live_start`. -/
def handle_live_found (s : MonitorState) (b : LiveBroadcast) :
    MonitorState × List MonEvent :=
  match alLookup b.broadcast_id s.active_lives with
  | some existing =>
    let updated : LiveBroadcast := { existing with viewer_count := b.viewer_count }
    ({ s with active_lives := alInsert b.broadcast_id updated s.active_lives }, [])
  | none =>
    ({ s with active_lives := s.active_lives ++ [(b.broadcast_id, b)],
              total_lives_found := s.total_lives_found + 1 },
     [.live_start b.broadcast_id])

/-- `LiveMonitor._handle_ended_lives`: every tracked broadcast whose id is
not among the current ones is removed and fires `on_live_end`. -/
def handle_ended_lives (s : MonitorState) (current_ids : List String) :
    MonitorState × List MonEvent :=
  let ended := s.active_lives.filter (fun p => ¬ current_ids.contains p.1)
  ({ s with active_lives := s.active_lives.filter (fun p => current_ids.contains p.1) },
   ended.map (fun p => .live_end p.1))

/-- `LiveMonitorV2.check_all_lives`: bump the tick counters, read the reels
tray (exceptions already swallowed inside `_get_lives_from_reels_tray`),
keep the broadcasts whose username matches a target case-insensitively,
run `_handle_live_found` on each parsed one, then `_handle_ended_lives`
against the ids seen this tick.  Returns the new state, the broadcasts
considered active this tick, and the emitted events. -/
def check_all_lives_v2 (s : MonitorState) (targets : List String)
    (fetch : Except String (List RawBroadcast)) :
    MonitorState × List LiveBroadcast × List MonEvent :=
  let s1 : MonitorState := { s with total_checks := s.total_checks + 1 }
  let broadcasts := get_lives_from_reels_tray fetch
  let target_usernames := targets.map strToLower
  let step := fun (acc : MonitorState × List LiveBroadcast × List MonEvent)
      (data : RawBroadcast) =>
    if target_usernames.contains (strToLower data.username) then
      match parse_broadcast data with
      | some live =>
        let (s', evs) := handle_live_found acc.1 live
        (s', acc.2.1 ++ [live], acc.2.2 ++ evs)
      | none => acc
    else acc
  let (s2, actives, evs) := broadcasts.foldl step (s1, [], [])
  let (s3, endEvs) := handle_ended_lives s2 (actives.map (fun b => b.broadcast_id))
  (s3, actives, evs ++ endEvs)

/-!
## Dedup ledger (`DownloadHistory` in `story_monitor.py`)

Timestamps are integer seconds; `datetime.now()` is passed in explicitly as
`now`.  `timedelta(hours=expire_hours)` is `expire_hours * 3600` seconds.
-/

structure DownloadHistory where
  expire_hours : Nat
  history : List (String × Int) := []
deriving DecidableEq, Repr

/-- `DownloadHistory.is_downloaded`: absent → `False`; present but recorded
more than the expiry horizon ago → evict inline and return `False`; else
`True`.  Returns the (possibly evicting) new ledger with the answer. -/
def is_downloaded (h : DownloadHistory) (story_id : String) (now : Int) :
    DownloadHistory × Bool :=
  match alLookup story_id h.history with
  | none => (h, false)
  | some download_time =>
    if now - download_time > (h.expire_hours : Int) * 3600 then
      ({ h with history := alErase story_id h.history }, false)
    else (h, true)

/-- `DownloadHistory.mark_downloaded`: record (or refresh) the id at `now`
and persist. -/
def mark_downloaded (h : DownloadHistory) (story_id : String) (now : Int) :
    DownloadHistory :=
  { h with history := alInsert story_id now h.history }

/-- `DownloadHistory.cleanup`: drop every entry strictly older than
`now - expire_hours` and persist when anything was dropped. -/
def cleanup (h : DownloadHistory) (now : Int) : DownloadHistory :=
  let cutoff : Int := now - (h.expire_hours : Int) * 3600
  { h with history := h.history.filter (fun p => ¬ p.2 < cutoff) }

/-!
## Recorder worker prologue (`_record_stream`, lines 353–377)

Stream-URL choice, the URL-absent guard, the validation whose `SecurityError`
is caught and only logged, and the dispatch to yt-dlp (preferred) or ffmpeg.
-/

/-- Returns `.ok url` when the transfer tool is invoked with `url`, `.error`
when an exception aborts the attempt before any transfer starts.  The result
of `validate_stream_url` is deliberately not consulted: its failure is
caught, logged and execution falls through to the transfer. -/
def record_stream_transfer (ytdlp ffmpeg : Bool) (b : LiveBroadcast) :
    Except RecError String :=
  let stream_url := strOr b.dash_abr_playback_url b.dash_playback_url
  if stream_url = "" then .error (.generic "스트림 URL을 찾을 수 없습니다")
  else if ytdlp then .ok stream_url
  else if ffmpeg then .ok stream_url
  else .error (.dependency "녹화 도구가 없습니다")

/-!
## Event counters
-/

def countEv (e : REvent) : List REvent → Nat
  | [] => 0
  | e' :: rest => (if e' = e then 1 else 0) + countEv e rest

def countDEv (e : DEvent) : List DEvent → Nat
  | [] => 0
  | e' :: rest => (if e' = e then 1 else 0) + countDEv e rest

/-!
## Concrete fixtures (used by counterexamples and witnesses)
-/

def bAlice : LiveBroadcast :=
  { broadcast_id := "a", username := "alice", viewer_count := 5,
    dash_playback_url := "https://live.fbcdn.net/a.mpd", dash_abr_playback_url := "" }

def bBob : LiveBroadcast :=
  { broadcast_id := "b", username := "bob", viewer_count := 2,
    dash_playback_url := "https://live.fbcdn.net/b.mpd", dash_abr_playback_url := "" }

def tAlice : RecordingTask :=
  { broadcast := bAlice, output_path := "rec/alice_1.mp4", max_retries := 3 }

/-- Bob's task as it looks after one failed attempt scheduled for retry. -/
def tBobFailed : RecordingTask :=
  { broadcast := bBob, output_path := "rec/bob_1.mp4", retry_count := 1, max_retries := 3 }

def recEmpty : StreamRecorder :=
  { max_concurrent := 1, max_retries := 3, min_disk_space_mb := 500,
    ytdlp_available := true, ffmpeg_available := false }

/-- A recorder whose single worker slot is taken by Alice's task. -/
def recFull : StreamRecorder :=
  { recEmpty with active_recordings := [("a", tAlice)] }

/-- Admissions interleaved with a retry re-admission: Bob is admitted, his
worker fails (retry scheduled) and releases the slot, Alice fills the slot,
then Bob's retry fires while the pool is full. -/
def retryTrace : List RecOp :=
  [.start bBob none "rec/bob_1.mp4",
   .finish tBobFailed,
   .start bAlice none "rec/alice_1.mp4",
   .retryDispatch tBobFailed "rec/bob_2.mp4"]

def stAlice : StoryItem :=
  { story_id := "s1", username := "alice", media_type := 1,
    image_url := "https://scontent.cdninstagram.com/i.jpg" }

def stBob : StoryItem :=
  { story_id := "s2", username := "bob", media_type := 1,
    image_url := "https://scontent.cdninstagram.com/j.jpg" }

/-- A story whose media URL is outside the CDN allow-list. -/
def stEvil : StoryItem :=
  { story_id := "s3", username := "eve", media_type := 1,
    image_url := "https://evil.example.com/a.jpg" }

def dlEmpty : StoryDownloader := { max_concurrent := 1, min_disk_space_mb := 500 }

def dtAlice : DownloadTask := { story := stAlice, output_path := "st/alice_1.jpg" }

/-- A downloader whose single worker slot is taken by Alice's story. -/
def dlFull : StoryDownloader :=
  { dlEmpty with active_downloads := [("s1", dtAlice)] }

def dtEvil : DownloadTask := { story := stEvil, output_path := "st/eve_1.jpg" }

/-- Monitor state already tracking one live broadcast. -/
def monPre : MonitorState := { active_lives := [("a", bAlice)] }

def histEmpty : DownloadHistory := { expire_hours := 24 }

/-- A 501-character cause, longer than the 500-character truncation window. -/
def longCause : String := String.mk (List.replicate 501 (Char.ofNat 120))

/-- A broadcast whose only stream URL is outside the domain allow-list. -/
def bEvil : LiveBroadcast :=
  { broadcast_id := "e", username := "eve", viewer_count := 0,
    dash_playback_url := "https://evil.example.com/live.mpd",
    dash_abr_playback_url := "" }

/-- Alice's task once its retry budget is exhausted. -/
def tExhausted : RecordingTask :=
  { broadcast := bAlice, output_path := "rec/alice_9.mp4",
    retry_count := 3, max_retries := 3 }

/-!
## Helper lemmas
-/

theorem alLookup_alInsert_self {β : Type} (k : String) (v : β) :
    ∀ l : List (String × β), alLookup k (alInsert k v l) = some v := by
  intro l
  induction l with
  | nil => simp [alInsert, alLookup]
  | cons hd tl ih =>
    obtain ⟨k', v'⟩ := hd
    by_cases h : k' = k
    · simp [alInsert, alLookup, h]
    · simp [alInsert, alLookup, h, ih]

theorem alLookup_alErase_self {β : Type} (k : String) :
    ∀ l : List (String × β), alLookup k (alErase k l) = none := by
  intro l
  induction l with
  | nil => simp [alErase, alLookup]
  | cons hd tl ih =>
    obtain ⟨k', v'⟩ := hd
    by_cases h : k' = k
    · simp [alErase, h, ih]
    · simp [alErase, alLookup, h, ih]

theorem length_alErase_le {β : Type} (k : String) :
    ∀ l : List (String × β), (alErase k l).length ≤ l.length := by
  intro l
  induction l with
  | nil => simp [alErase]
  | cons hd tl ih =>
    obtain ⟨k', v'⟩ := hd
    by_cases h : k' = k
    · simp only [alErase, h, if_true]
      exact Nat.le_succ_of_le ih
    · simp only [alErase, h, if_false, List.length_cons]
      omega

/-!
## C10 — the disk-space preflight fails open
-/

/-- C10: `check_disk_space` returns `True` whenever the filesystem-usage
query raises (modelled as `usage = none`), for every floor; it returns
`False` exactly when usage was read successfully and the free space in MB is
below the floor.  Both admission-time and in-flight checks call this same
function, so an unverifiable disk state is always treated as sufficient. -/
theorem disk_check_fails_open :
    (∀ min_space_mb : ℚ, check_disk_space none min_space_mb = true) ∧
    (∀ freeBytes min_space_mb : ℚ,
      check_disk_space (some freeBytes) min_space_mb = false ↔
        freeBytes / (1024 * 1024) < min_space_mb) := by
  constructor
  · intro m
    rfl
  · intro f m
    simp only [check_disk_space]
    split <;> simp_all

/-!
## C6 — dedup-ledger TTL round trip
-/

/-- C6: (1) immediately after `mark_downloaded(x)`, `is_downloaded(x)` is
`True`; (2) once strictly more than `expire_hours` have elapsed since the
mark, `is_downloaded(x)` is `False` and the entry has been evicted inline;
(3) `cleanup()` keeps exactly the entries not older than the horizon: every
surviving entry is within the horizon, and every entry within the horizon
survives. -/
theorem dedup_ttl_roundtrip :
    (∀ (h : DownloadHistory) (x : String) (now : Int),
      (is_downloaded (mark_downloaded h x now) x now).2 = true) ∧
    (∀ (h : DownloadHistory) (x : String) (now later : Int),
      later - now > (h.expire_hours : Int) * 3600 →
      (is_downloaded (mark_downloaded h x now) x later).2 = false ∧
      alLookup x ((is_downloaded (mark_downloaded h x now) x later).1).history = none) ∧
    (∀ (h : DownloadHistory) (now : Int) (p : String × Int),
      (p ∈ (cleanup h now).history ↔
        p ∈ h.history ∧ ¬ p.2 < now - (h.expire_hours : Int) * 3600)) := by
  refine ⟨?_, ?_, ?_⟩
  · intro h x now
    simp only [is_downloaded, mark_downloaded, alLookup_alInsert_self]
    have h0 : ¬ (now - now > (h.expire_hours : Int) * 3600) := by
      have hnn : (0 : Int) ≤ (h.expire_hours : Int) * 3600 := by positivity
      omega
    rw [if_neg h0]
  · intro h x now later hlate
    simp only [is_downloaded, mark_downloaded, alLookup_alInsert_self]
    rw [if_pos hlate]
    exact ⟨rfl, alLookup_alErase_self x _⟩
  · intro h now p
    simp [cleanup, List.mem_filter]

/-- Witness for C6 at an expiry horizon of 24 h: the id marked at time 0 is
still recorded at time 0 and no longer recorded one second past 24 h. -/
theorem dedup_ttl_roundtrip_witness :
    (is_downloaded (mark_downloaded histEmpty "s1" 0) "s1" 0).2 = true ∧
    ((86401 : Int) - 0 > (histEmpty.expire_hours : Int) * 3600 ∧
      (is_downloaded (mark_downloaded histEmpty "s1" 0) "s1" 86401).2 = false) :=
  ⟨dedup_ttl_roundtrip.1 histEmpty "s1" 0,
   by decide,
   (dedup_ttl_roundtrip.2.1 histEmpty "s1" 0 86401 (by decide)).1⟩

/-!
## C1 — pool-ceiling invariant
-/

theorem start_recording_inv (s : StreamRecorder) (b : LiveBroadcast) (f : Option ℚ)
    (p : String) (h : s.active_recordings.length ≤ s.max_concurrent) :
    ((start_recording s b f p).1).active_recordings.length ≤
      ((start_recording s b f p).1).max_concurrent := by
  unfold start_recording
  split
  · simpa using h
  · split
    · simpa using h
    · split
      · simpa using h
      · split
        · simpa using h
        · rename_i hcap _
          simp only [List.length_append, List.length_cons, List.length_nil]
          omega

theorem start_download_inv (d : StoryDownloader) (story : StoryItem) (f : Option ℚ)
    (p : String) (h : d.active_downloads.length < d.max_concurrent) :
    ((start_download d story f p).1).active_downloads.length ≤
      ((start_download d story f p).1).max_concurrent := by
  unfold start_download
  split
  · simpa using Nat.le_of_lt h
  · split
    · simpa using Nat.le_of_lt h
    · simp only [List.length_append, List.length_cons, List.length_nil]
      omega

theorem download_inv (d : StoryDownloader) (story : StoryItem) (f : Option ℚ)
    (p : String) (h : d.active_downloads.length ≤ d.max_concurrent) :
    ((download d story f p).1).active_downloads.length ≤
      ((download d story f p).1).max_concurrent := by
  unfold download
  split
  · simpa using h
  · split
    · split
      · simpa using h
      · simpa using h
    · rename_i hcap
      exact start_download_inv d story f p (by omega)

theorem process_queue_step_inv (d : StoryDownloader) (f : Option ℚ) (p : String)
    (h : d.active_downloads.length ≤ d.max_concurrent) :
    (process_queue_step d f p).active_downloads.length ≤
      (process_queue_step d f p).max_concurrent := by
  unfold process_queue_step
  split
  · simpa using h
  · rename_i hcap
    split
    · simpa using h
    · exact start_download_inv _ _ f p (by simpa using Nat.lt_of_not_le hcap)

theorem recStep_inv (s : StreamRecorder) (op : RecOp)
    (hop : op.isRetryDispatch = false)
    (h : s.active_recordings.length ≤ s.max_concurrent) :
    (recStep s op).active_recordings.length ≤ (recStep s op).max_concurrent := by
  cases op with
  | start b f p => exact start_recording_inv s b f p h
  | finish t =>
    simp only [recStep, finish_recording]
    exact le_trans (length_alErase_le _ _) h
  | retryDispatch t p => simp [RecOp.isRetryDispatch] at hop

theorem downStep_inv (d : StoryDownloader) (op : DownOp)
    (h : d.active_downloads.length ≤ d.max_concurrent) :
    (downStep d op).active_downloads.length ≤ (downStep d op).max_concurrent := by
  cases op with
  | start story f p => exact download_inv d story f p h
  | dispatch f p => exact process_queue_step_inv d f p h
  | finish t =>
    simp only [downStep, finish_download]
    exact le_trans (length_alErase_le _ _) h

/-- C1 (amended): the ceiling `len(active) ≤ max_concurrent` is preserved by
every sequence of `start_recording` admissions and worker completions on the
recorder, and by every sequence of `download` admissions, `_process_queue`
dispatches and completions on the downloader — but not by
`StreamRecorder._retry_recording`, which re-inserts without a ceiling check
(see `pool_ceiling_counterexample`), so the recorder invariant holds only
for retry-free interleavings. -/
theorem pool_ceiling_amended :
    (∀ (s : StreamRecorder) (ops : List RecOp),
      (∀ op ∈ ops, op.isRetryDispatch = false) →
      s.active_recordings.length ≤ s.max_concurrent →
      (recRun s ops).active_recordings.length ≤ (recRun s ops).max_concurrent) ∧
    (∀ (d : StoryDownloader) (ops : List DownOp),
      d.active_downloads.length ≤ d.max_concurrent →
      (downRun d ops).active_downloads.length ≤ (downRun d ops).max_concurrent) := by
  constructor
  · intro s ops
    induction ops generalizing s with
    | nil => intro _ h; exact h
    | cons op rest ih =>
      intro hops h
      simp only [recRun]
      exact ih (recStep s op)
        (fun o ho => hops o (List.mem_cons_of_mem op ho))
        (recStep_inv s op (hops op (List.mem_cons_self op rest)) h)
  · intro d ops
    induction ops generalizing d with
    | nil => intro h; exact h
    | cons op rest ih =>
      intro h
      simp only [downRun]
      exact ih (downStep d op) (downStep_inv d op h)

/-- Counterexample to C1 as stated: with `max_concurrent = 1`, admitting Bob,
finishing his failed worker, admitting Alice, and then letting Bob's retry
re-admission fire yields two entries in `active_recordings` — the retry path
inserts past the ceiling. -/
theorem pool_ceiling_counterexample :
    (recRun recEmpty retryTrace).active_recordings.length = 2 ∧
    (recRun recEmpty retryTrace).max_concurrent = 1 := by
  exact ⟨rfl, rfl⟩

/-- Witness for C1 (amended): a concrete retry-free interleaving at
`max_concurrent = 1` — admit Bob, finish him, admit Alice — keeps the active
map at the ceiling. -/
theorem pool_ceiling_amended_witness :
    (∀ op ∈ [RecOp.start bBob none "rec/bob_1.mp4", RecOp.finish tBobFailed,
             RecOp.start bAlice none "rec/alice_1.mp4"],
      op.isRetryDispatch = false) ∧
    recEmpty.active_recordings.length ≤ recEmpty.max_concurrent ∧
    (recRun recEmpty [RecOp.start bBob none "rec/bob_1.mp4", RecOp.finish tBobFailed,
             RecOp.start bAlice none "rec/alice_1.mp4"]).active_recordings.length ≤
      (recRun recEmpty [RecOp.start bBob none "rec/bob_1.mp4", RecOp.finish tBobFailed,
             RecOp.start bAlice none "rec/alice_1.mp4"]).max_concurrent := by
  refine ⟨?_, ?_, ?_⟩
  · intro op hop
    fin_cases hop <;> rfl
  · decide
  · exact pool_ceiling_amended.1 recEmpty _
      (by intro op hop; fin_cases hop <;> rfl) (by decide)

/-!
## C3 — idempotent admission
-/

/-- C3: re-admitting an id already present in the active map returns the very
task stored for it and leaves the whole state — active map, queue, completed
history and the executor-submission counter — unchanged, for both
`StreamRecorder.start_recording` (whose dependency check precedes the id
lookup, hence the recording-tool hypothesis; tool availability is fixed at
construction and a nonempty active map implies it held) and
`StoryDownloader.download`. -/
theorem admission_idempotent :
    (∀ (s : StreamRecorder) (b : LiveBroadcast) (f : Option ℚ) (p : String)
        (t : RecordingTask),
      (s.ytdlp_available = true ∨ s.ffmpeg_available = true) →
      alLookup b.broadcast_id s.active_recordings = some t →
      start_recording s b f p = (s, some t)) ∧
    (∀ (d : StoryDownloader) (story : StoryItem) (f : Option ℚ) (p : String)
        (t : DownloadTask),
      alLookup story.story_id d.active_downloads = some t →
      download d story f p = (d, some t)) := by
  constructor
  · intro s b f p t htools hmem
    unfold start_recording
    rw [if_neg (not_not_intro htools), hmem]
  · intro d story f p t hmem
    unfold download
    rw [hmem]

/-- Witness for C3: re-admitting Alice's broadcast (resp. story) into the
saturated recorder (resp. downloader) returns the stored task unchanged. -/
theorem admission_idempotent_witness :
    ((recFull.ytdlp_available = true ∨ recFull.ffmpeg_available = true) ∧
      alLookup bAlice.broadcast_id recFull.active_recordings = some tAlice ∧
      start_recording recFull bAlice none "rec/alice_2.mp4" = (recFull, some tAlice)) ∧
    (alLookup stAlice.story_id dlFull.active_downloads = some dtAlice ∧
      download dlFull stAlice none "st/alice_2.jpg" = (dlFull, some dtAlice)) :=
  ⟨⟨Or.inl rfl, rfl,
    admission_idempotent.1 recFull bAlice none "rec/alice_2.mp4" tAlice (Or.inl rfl) rfl⟩,
   ⟨rfl, admission_idempotent.2 dlFull stAlice none "st/alice_2.jpg" dtAlice rfl⟩⟩

/-!
## C5 — backlog at the ceiling
-/

/-- C5 (amended): only the `StoryDownloader` has a backlog.  There, an
admission at the ceiling appends the story to the FIFO `_pending_queue`
unless its id is already queued (then the state is untouched), and one
`_process_queue` wake-up with a free slot pops the queue head and starts it.
The `StreamRecorder` has no backlog: an admission at its ceiling returns
`None` with the state unchanged, silently dropping the broadcast (see
`backlog_counterexample`). -/
theorem backlog_amended :
    (∀ (d : StoryDownloader) (story : StoryItem) (f : Option ℚ) (p : String),
      alLookup story.story_id d.active_downloads = none →
      d.max_concurrent ≤ d.active_downloads.length →
      ((d.pending_queue.any (fun q => q.story_id = story.story_id) = false →
        download d story f p =
          ({ d with pending_queue := d.pending_queue ++ [story] }, none)) ∧
       (d.pending_queue.any (fun q => q.story_id = story.story_id) = true →
        download d story f p = (d, none)))) ∧
    (∀ (d : StoryDownloader) (story : StoryItem) (rest : List StoryItem)
        (f : Option ℚ) (p : String),
      d.pending_queue = story :: rest →
      d.active_downloads.length < d.max_concurrent →
      process_queue_step d f p =
        (start_download ({ d with pending_queue := rest }) story f p).1) := by
  constructor
  · intro d story f p hmem hcap
    unfold download
    rw [hmem]
    constructor
    · intro hq
      rw [if_pos hcap, if_neg (by simp [hq])]
    · intro hq
      rw [if_pos hcap, if_pos (by simp [hq])]
  · intro d story rest f p hq hcap
    unfold process_queue_step
    rw [if_neg (Nat.not_le.mpr hcap), hq]

/-- Counterexample to C5 as stated: the recorder at its ceiling
(`max_concurrent = 1`, one active recording) returns `None` for Bob and
leaves the state — which has no backlog at all — exactly as it was: the
broadcast is silently dropped, not queued anywhere. -/
theorem backlog_counterexample :
    alLookup bBob.broadcast_id recFull.active_recordings = none ∧
    recFull.max_concurrent ≤ recFull.active_recordings.length ∧
    start_recording recFull bBob none "rec/bob_1.mp4" = (recFull, none) :=
  ⟨rfl, by decide, rfl⟩

/-- Witness for C5 (amended): with the downloader saturated, Bob's story
lands at the end of the queue; a later wake-up with a free slot starts
exactly the queue head. -/
theorem backlog_amended_witness :
    (alLookup stBob.story_id dlFull.active_downloads = none ∧
      dlFull.max_concurrent ≤ dlFull.active_downloads.length ∧
      dlFull.pending_queue.any (fun q => q.story_id = stBob.story_id) = false ∧
      download dlFull stBob none "st/bob_1.jpg" =
        ({ dlFull with pending_queue := dlFull.pending_queue ++ [stBob] }, none)) ∧
    ({ dlEmpty with pending_queue := [stBob] }.pending_queue = [stBob] ∧
      { dlEmpty with pending_queue := [stBob] }.active_downloads.length <
        { dlEmpty with pending_queue := [stBob] }.max_concurrent ∧
      process_queue_step ({ dlEmpty with pending_queue := [stBob] }) none "st/bob_1.jpg" =
        (start_download dlEmpty stBob none "st/bob_1.jpg").1) :=
  ⟨⟨rfl, by decide, rfl,
    (backlog_amended.1 dlFull stBob none "st/bob_1.jpg" rfl (by decide)).1 rfl⟩,
   ⟨rfl, by decide,
    backlog_amended.2 ({ dlEmpty with pending_queue := [stBob] }) stBob [] none
      "st/bob_1.jpg" rfl (by decide)⟩⟩

/-!
## C7 — disk-space preflight rejects outright
-/

/-- C7: when the preflight disk check fails, admission returns `None` with
the state untouched: no task is created, nothing is queued for later, the
executor-submission counter is unchanged (so no worker is spawned), and
since `on_recording_start` / `on_download_start` are emitted only inside a
submitted worker, no capture-start event is emitted.  Stated for
`StreamRecorder.start_recording` (disk check reached with tools available,
id not active, pool below the ceiling), for
`StoryDownloader._start_download`, and for the full
`StoryDownloader.download` path. -/
theorem disk_preflight_rejects :
    (∀ (s : StreamRecorder) (b : LiveBroadcast) (f : Option ℚ) (p : String),
      (s.ytdlp_available = true ∨ s.ffmpeg_available = true) →
      alLookup b.broadcast_id s.active_recordings = none →
      s.active_recordings.length < s.max_concurrent →
      check_disk_space f s.min_disk_space_mb = false →
      start_recording s b f p = (s, none)) ∧
    (∀ (d : StoryDownloader) (story : StoryItem) (f : Option ℚ) (p : String),
      check_disk_space f d.min_disk_space_mb = false →
      start_download d story f p = (d, none)) ∧
    (∀ (d : StoryDownloader) (story : StoryItem) (f : Option ℚ) (p : String),
      alLookup story.story_id d.active_downloads = none →
      d.active_downloads.length < d.max_concurrent →
      check_disk_space f d.min_disk_space_mb = false →
      download d story f p = (d, none)) := by
  refine ⟨?_, ?_, ?_⟩
  · intro s b f p htools hmem hcap hdisk
    unfold start_recording
    rw [if_neg (not_not_intro htools), hmem, if_neg (Nat.not_le.mpr hcap),
      if_pos (by simp [hdisk])]
  · intro d story f p hdisk
    unfold start_download
    rw [if_pos (by simp [hdisk])]
  · intro d story f p hmem hcap hdisk
    unfold download
    rw [hmem, if_neg (Nat.not_le.mpr hcap)]
    unfold start_download
    rw [if_pos (by simp [hdisk])]

/-- Witness for C7: with 0 bytes free against a 500 MB floor, both
admissions reject outright, returning the state unchanged. -/
theorem disk_preflight_rejects_witness :
    ((recEmpty.ytdlp_available = true ∨ recEmpty.ffmpeg_available = true) ∧
      alLookup bBob.broadcast_id recEmpty.active_recordings = none ∧
      recEmpty.active_recordings.length < recEmpty.max_concurrent ∧
      check_disk_space (some 0) recEmpty.min_disk_space_mb = false ∧
      start_recording recEmpty bBob (some 0) "rec/bob_1.mp4" = (recEmpty, none)) ∧
    (check_disk_space (some 0) dlEmpty.min_disk_space_mb = false ∧
      download dlEmpty stBob (some 0) "st/bob_1.jpg" = (dlEmpty, none)) := by
  have hrec : check_disk_space (some 0) recEmpty.min_disk_space_mb = false := by
    norm_num [check_disk_space, recEmpty]
  have hdl : check_disk_space (some 0) dlEmpty.min_disk_space_mb = false := by
    norm_num [check_disk_space, dlEmpty]
  exact ⟨⟨Or.inl rfl, rfl, by decide, hrec,
    disk_preflight_rejects.1 recEmpty bBob (some 0) "rec/bob_1.mp4" (Or.inl rfl) rfl
      (by decide) hrec⟩,
   ⟨hdl,
    disk_preflight_rejects.2.2 dlEmpty stBob (some 0) "st/bob_1.jpg" rfl
      (by decide) hdl⟩⟩

/-!
## C8 — URL validation as a soft stop
-/

/-- C8 (amended): only the recorder treats URL validation as
defense-in-depth.  In `StreamRecorder._record_stream` the `SecurityError`
from `validate_stream_url` is caught and logged, and the transfer tool is
invoked anyway with the chosen stream URL (given the URL is nonempty and a
recording tool is installed).  In `StoryDownloader._download_file` a
validation failure is a hard stop: it is re-raised as a `DownloadError`, the
task terminates as failed and the transfer is never invoked (see
`url_validation_counterexample`). -/
theorem url_validation_soft_stop_amended :
    ∀ (b : LiveBroadcast) (ytdlp ffmpeg : Bool) (e : String),
      (ytdlp = true ∨ ffmpeg = true) →
      strOr b.dash_abr_playback_url b.dash_playback_url ≠ "" →
      validate_stream_url (strOr b.dash_abr_playback_url b.dash_playback_url) =
        .error e →
      record_stream_transfer ytdlp ffmpeg b =
        .ok (strOr b.dash_abr_playback_url b.dash_playback_url) := by
  intro b ytdlp ffmpeg e htools hurl _hval
  unfold record_stream_transfer
  rw [if_neg hurl]
  rcases htools with h | h
  · rw [if_pos h]
  · by_cases hy : ytdlp = true
    · rw [if_pos hy]
    · rw [if_neg hy, if_pos h]

/-- Counterexample to C8 as stated: a story whose media URL fails
`validate_media_url` has its download aborted — the task ends `failed` with
the security message and `_download_with_retry` (the transfer) is never
invoked, even though the transfer would have succeeded. -/
theorem url_validation_counterexample :
    validate_media_url dtEvil.story.media_url = .error "허용되지 않은 도메인" ∧
    (download_file dtEvil (.ok 10)).2.2 = false ∧
    (download_file dtEvil (.ok 10)).1.status = "failed" :=
  ⟨rfl, rfl, rfl⟩

/-- Witness for C8 (amended): Bob's recorder invokes yt-dlp on the
disallowed-domain URL even though validation rejects it. -/
theorem url_validation_soft_stop_witness :
    strOr bEvil.dash_abr_playback_url bEvil.dash_playback_url ≠ "" ∧
    validate_stream_url (strOr bEvil.dash_abr_playback_url bEvil.dash_playback_url) =
      .error "허용되지 않은 도메인" ∧
    record_stream_transfer true false bEvil =
      .ok (strOr bEvil.dash_abr_playback_url bEvil.dash_playback_url) :=
  ⟨by decide, rfl,
   url_validation_soft_stop_amended bEvil true false "허용되지 않은 도메인"
     (Or.inl rfl) (by decide) rfl⟩

/-!
## C4 — bounded retries
-/

/-- Unfolding equation: a successful attempt completes the task. -/
theorem runTask_ok (outcomes : Nat → AttemptOutcome) (t : RecordingTask) (attempt : Nat)
    (h : outcomes attempt = .ok) :
    runTask outcomes t attempt =
      ({ t with status := "completed" }, [.start, .complete]) := by
  rw [runTask, h]

/-- Unfolding equation: a `DiskSpaceError` fails the task outright. -/
theorem runTask_disk (outcomes : Nat → AttemptOutcome) (t : RecordingTask) (attempt : Nat)
    (m : String) (h : outcomes attempt = .fail (.diskSpace m)) :
    runTask outcomes t attempt =
      ({ t with status := "failed", error_message := "디스크 공간 부족: " ++ m },
       [.start, .failed]) := by
  rw [runTask, h]

/-- Unfolding equation: a non-disk failure that `_should_retry` refuses is
terminal. -/
theorem runTask_fail_noretry (outcomes : Nat → AttemptOutcome) (t : RecordingTask)
    (attempt : Nat) (e : RecError) (he : outcomes attempt = .fail e)
    (hd : e.isDiskSpace = false)
    (hsr : should_retry t.retry_count t.max_retries e = false) :
    runTask outcomes t attempt =
      ({ t with status := "failed", error_message := e.msg.take 500 },
       [.start, .failed]) := by
  cases e with
  | diskSpace m => simp [RecError.isDiskSpace] at hd
  | dependency m =>
    rw [runTask, he]
    dsimp only
    rw [dif_neg (by simp [hsr])]
  | generic m =>
    rw [runTask, he]
    dsimp only
    rw [dif_neg (by simp [hsr])]

/-- Unfolding equation: a non-disk failure that `_should_retry` accepts
increments the counter and re-runs on a fresh pending attempt. -/
theorem runTask_fail_retry (outcomes : Nat → AttemptOutcome) (t : RecordingTask)
    (attempt : Nat) (e : RecError) (he : outcomes attempt = .fail e)
    (hd : e.isDiskSpace = false)
    (hsr : should_retry t.retry_count t.max_retries e = true) :
    runTask outcomes t attempt =
      ((runTask outcomes
          ({ t with retry_count := t.retry_count + 1, status := "pending",
                    error_message := "" }) (attempt + 1)).1,
       .start :: .retry ::
         (runTask outcomes
           ({ t with retry_count := t.retry_count + 1, status := "pending",
                     error_message := "" }) (attempt + 1)).2) := by
  cases e with
  | diskSpace m => simp [RecError.isDiskSpace] at hd
  | dependency m =>
    rw [runTask, he]
    dsimp only
    rw [dif_pos hsr]
  | generic m =>
    rw [runTask, he]
    dsimp only
    rw [dif_pos hsr]

/-- `_should_retry` requires remaining retry budget. -/
theorem should_retry_lt (rc mr : Nat) (e : RecError)
    (h : should_retry rc mr e = true) : rc < mr := by
  by_contra hge
  simp only [should_retry] at h
  rw [if_pos (by omega)] at h
  exact absurd h (by decide)

/-- Behaviour of the full retry cycle, by induction on the remaining retry
budget: the retry counter only grows, never beyond `max(max_retries,
retry_count)`; the number of `on_recording_retry` emissions equals the growth
of the counter; the task ends in a terminal status; and a terminal `failed`
(resp. `completed`) run emits the failure callback exactly once
(resp. never). -/
theorem runTask_spec (k : Nat) :
    ∀ (outcomes : Nat → AttemptOutcome) (t : RecordingTask) (attempt : Nat),
      t.max_retries + 1 - t.retry_count ≤ k →
      t.retry_count ≤ (runTask outcomes t attempt).1.retry_count ∧
      (runTask outcomes t attempt).1.retry_count ≤ max t.max_retries t.retry_count ∧
      countEv .retry (runTask outcomes t attempt).2 =
        (runTask outcomes t attempt).1.retry_count - t.retry_count ∧
      ((runTask outcomes t attempt).1.status = "completed" ∨
        (runTask outcomes t attempt).1.status = "failed") ∧
      ((runTask outcomes t attempt).1.status = "failed" →
        countEv .failed (runTask outcomes t attempt).2 = 1) ∧
      ((runTask outcomes t attempt).1.status = "completed" →
        countEv .failed (runTask outcomes t attempt).2 = 0) := by
  induction k with
  | zero =>
    intro outcomes t attempt hk
    have hrc : t.max_retries ≤ t.retry_count := by omega
    cases houtcome : outcomes attempt with
    | ok =>
      rw [runTask_ok outcomes t attempt houtcome]
      refine ⟨le_refl _, le_max_right _ _, by simp [countEv], Or.inl rfl,
        fun h => ?_, fun _ => by simp [countEv]⟩
      simp at h
    | fail e =>
      cases e with
      | diskSpace m =>
        rw [runTask_disk outcomes t attempt m houtcome]
        refine ⟨le_refl _, le_max_right _ _, by simp [countEv], Or.inr rfl,
          fun _ => by simp [countEv], fun h => ?_⟩
        simp at h
      | dependency m =>
        rw [runTask_fail_noretry outcomes t attempt (.dependency m) houtcome rfl
          (by simp [should_retry, RecError.isDependency, RecError.isDiskSpace])]
        refine ⟨le_refl _, le_max_right _ _, by simp [countEv], Or.inr rfl,
          fun _ => by simp [countEv], fun h => ?_⟩
        simp at h
      | generic m =>
        rw [runTask_fail_noretry outcomes t attempt (.generic m) houtcome rfl
          (by simp only [should_retry]; rw [if_pos (by omega)])]
        refine ⟨le_refl _, le_max_right _ _, by simp [countEv], Or.inr rfl,
          fun _ => by simp [countEv], fun h => ?_⟩
        simp at h
  | succ k ih =>
    intro outcomes t attempt hk
    cases houtcome : outcomes attempt with
    | ok =>
      rw [runTask_ok outcomes t attempt houtcome]
      refine ⟨le_refl _, le_max_right _ _, by simp [countEv], Or.inl rfl,
        fun h => ?_, fun _ => by simp [countEv]⟩
      simp at h
    | fail e =>
      cases e with
      | diskSpace m =>
        rw [runTask_disk outcomes t attempt m houtcome]
        refine ⟨le_refl _, le_max_right _ _, by simp [countEv], Or.inr rfl,
          fun _ => by simp [countEv], fun h => ?_⟩
        simp at h
      | dependency m =>
        rw [runTask_fail_noretry outcomes t attempt (.dependency m) houtcome rfl
          (by simp [should_retry, RecError.isDependency, RecError.isDiskSpace])]
        refine ⟨le_refl _, le_max_right _ _, by simp [countEv], Or.inr rfl,
          fun _ => by simp [countEv], fun h => ?_⟩
        simp at h
      | generic m =>
        by_cases hsr : should_retry t.retry_count t.max_retries (.generic m) = true
        · have hlt : t.retry_count < t.max_retries :=
            should_retry_lt t.retry_count t.max_retries (.generic m) hsr
          rw [runTask_fail_retry outcomes t attempt (.generic m) houtcome rfl hsr]
          dsimp only
          have hrec := ih outcomes
            ({ t with retry_count := t.retry_count + 1, status := "pending",
                      error_message := "" }) (attempt + 1) (by simp; omega)
          simp only at hrec
          obtain ⟨hlo, hhi, hcnt, hst, hf1, hf0⟩ := hrec
          refine ⟨?_, ?_, ?_, hst, ?_, ?_⟩
          · omega
          · omega
          · simp [countEv]
            omega
          · intro h
            simp [countEv]
            exact hf1 h
          · intro h
            simp [countEv]
            exact hf0 h
        · rw [runTask_fail_noretry outcomes t attempt (.generic m) houtcome rfl
            (Bool.not_eq_true _ ▸ (Bool.eq_false_iff.mpr hsr))]
          refine ⟨le_refl _, le_max_right _ _, by simp [countEv], Or.inr rfl,
            fun _ => by simp [countEv], fun h => ?_⟩
          simp at h

/-- C4: starting from a fresh task (`retry_count = 0`), a capture failing
with retryable errors is retried at most `max_retries` times — that is, at
most `max_attempts - 1` times for the total attempt budget
`max_attempts = max_retries + 1` (the initial attempt plus the retries) —
the retry counter never exceeds its configured maximum `max_retries`, the
task always terminates in `completed` or `failed`, and a terminal failure
reaches the failure callback exactly once. -/
theorem retry_bound :
    ∀ (outcomes : Nat → AttemptOutcome) (t : RecordingTask),
      t.retry_count = 0 →
      countEv .retry (runTask outcomes t 0).2 ≤ (t.max_retries + 1) - 1 ∧
      (runTask outcomes t 0).1.retry_count ≤ t.max_retries ∧
      ((runTask outcomes t 0).1.status = "completed" ∨
        (runTask outcomes t 0).1.status = "failed") ∧
      ((runTask outcomes t 0).1.status = "failed" →
        countEv .failed (runTask outcomes t 0).2 = 1) := by
  intro outcomes t h0
  obtain ⟨hlo, hhi, hcnt, hst, hf1, _⟩ :=
    runTask_spec (t.max_retries + 1) outcomes t 0 (by omega)
  rw [h0] at hhi hcnt
  simp only [Nat.max_zero] at hhi
  exact ⟨by omega, hhi, hst, hf1⟩

/-- Witness for C4: a task with a 3-retry budget failing every attempt with
a retryable (network-style) error is retried at most 3 times, ends `failed`,
and fires the failure callback once. -/
theorem retry_bound_witness :
    tAlice.retry_count = 0 ∧
    countEv .retry (runTask (fun _ => .fail (.generic "timeout")) tAlice 0).2 ≤
      (tAlice.max_retries + 1) - 1 ∧
    ((runTask (fun _ => .fail (.generic "timeout")) tAlice 0).1.status = "failed" →
      countEv .failed (runTask (fun _ => .fail (.generic "timeout")) tAlice 0).2 = 1) :=
  ⟨rfl,
   (retry_bound (fun _ => .fail (.generic "timeout")) tAlice rfl).1,
   (retry_bound (fun _ => .fail (.generic "timeout")) tAlice rfl).2.2.2⟩

/-!
## C9 — bounded error messages, exactly one failure callback
-/

/-- C9 (amended): the generic `except Exception` branches of both workers
store `str(e)[:500]` — the first 500 characters of the cause — as
`error_message`, but the `DiskSpaceError` branches store
`"디스크 공간 부족: " + str(e)`: a fixed label plus the untruncated cause
(see `error_message_counterexample`).  The exactly-one-callback half holds:
the recorder's handler emits exactly one retry or one failure event per
attempt, a full retry cycle fires `on_recording_failed` exactly once when it
ends `failed` and never when it completes, and `_download_file` fires
`on_download_failed` exactly once on every failed download. -/
theorem error_reporting_amended :
    (∀ (t : RecordingTask) (m : String),
      (handle_failure t (.generic m)).1.error_message = m.take 500 ∧
      (handle_failure t (.dependency m)).1.error_message = m.take 500) ∧
    (∀ (t : RecordingTask) (m : String),
      handle_failure t (.diskSpace m) =
        ({ t with status := "failed",
                  error_message := "디스크 공간 부족: " ++ m }, [.failed])) ∧
    (∀ (t : RecordingTask) (e : RecError),
      (handle_failure t e).2 = [.retry] ∨ (handle_failure t e).2 = [.failed]) ∧
    (∀ (t : RecordingTask) (e : RecError),
      should_retry t.retry_count t.max_retries e = false →
      (handle_failure t e).2 = [.failed]) ∧
    (∀ (outcomes : Nat → AttemptOutcome) (t : RecordingTask),
      ((runTask outcomes t 0).1.status = "failed" →
        countEv .failed (runTask outcomes t 0).2 = 1) ∧
      ((runTask outcomes t 0).1.status = "completed" →
        countEv .failed (runTask outcomes t 0).2 = 0)) ∧
    (∀ (t : DownloadTask) (tr : TransferOutcome),
      (download_file t tr).1.status = "failed" →
      countDEv .failed (download_file t tr).2.1 = 1) ∧
    (∀ (t : DownloadTask) (m : String),
      validate_media_url t.story.media_url = .ok () →
      (download_file t (.fail (.generic m))).1.error_message = m.take 500 ∧
      (download_file t (.fail (.diskSpace m))).1.error_message =
        "디스크 공간 부족: " ++ m) := by
  refine ⟨?_, ?_, ?_, ?_, ?_, ?_, ?_⟩
  · intro t m
    constructor
    · unfold handle_failure
      dsimp only
      split <;> simp [RecError.msg]
    · unfold handle_failure
      dsimp only
      split <;> simp [RecError.msg]
  · intro t m
    rfl
  · intro t e
    cases e with
    | diskSpace m => exact Or.inr rfl
    | dependency m =>
      unfold handle_failure
      dsimp only
      split
      · exact Or.inl rfl
      · exact Or.inr rfl
    | generic m =>
      unfold handle_failure
      dsimp only
      split
      · exact Or.inl rfl
      · exact Or.inr rfl
  · intro t e hsr
    cases e with
    | diskSpace m => rfl
    | dependency m =>
      unfold handle_failure
      dsimp only
      rw [if_neg (by simp [hsr])]
    | generic m =>
      unfold handle_failure
      dsimp only
      rw [if_neg (by simp [hsr])]
  · intro outcomes t
    obtain ⟨_, _, _, _, hf1, hf0⟩ :=
      runTask_spec (t.max_retries + 1) outcomes t 0 (by omega)
    exact ⟨hf1, hf0⟩
  · intro t tr
    cases hv : validate_media_url t.story.media_url with
    | error e =>
      unfold download_file
      rw [hv]
      intro _
      simp [countDEv]
    | ok u =>
      cases tr with
      | ok size =>
        unfold download_file
        rw [hv]
        intro h
        simp at h
      | fail e =>
        cases e with
        | diskSpace m =>
          unfold download_file
          rw [hv]
          intro _
          simp [countDEv]
        | generic m =>
          unfold download_file
          rw [hv]
          intro _
          simp [countDEv]
  · intro t m hv
    constructor
    · unfold download_file
      rw [hv]
    · unfold download_file
      rw [hv]

/-- Counterexample to C9 as stated: a disk-space failure whose cause is 501
characters long leaves an `error_message` of 512 characters — the
`DiskSpaceError` branch prepends an 11-character label and applies no
500-character truncation, so the message is not the first 500 characters of
the cause. -/
theorem error_message_counterexample :
    (handle_failure tAlice (.diskSpace longCause)).1.status = "failed" ∧
    ¬ ((handle_failure tAlice (.diskSpace longCause)).1.error_message.length ≤ 500) := by
  constructor
  · rfl
  · have h1 : (handle_failure tAlice (.diskSpace longCause)).1.error_message =
        "디스크 공간 부족: " ++ longCause := rfl
    have h2 : longCause.length = 501 := List.length_replicate 501 (Char.ofNat 120)
    rw [h1, String.length_append, h2]
    decide

/-- Witness for C9 (amended): a retry-exhausted generic failure fires the
failure callback; a validated story failing with a network error stores the
truncated cause; a failed download and a disk-failed recording cycle each
fire their failure callback exactly once. -/
theorem error_reporting_amended_witness :
    (should_retry tExhausted.retry_count tExhausted.max_retries (.generic "x") = false ∧
      (handle_failure tExhausted (.generic "x")).2 = [.failed]) ∧
    (validate_media_url dtAlice.story.media_url = .ok () ∧
      (download_file dtAlice (.fail (.generic "timeout"))).1.error_message =
        "timeout".take 500) ∧
    ((download_file dtAlice (.fail (.generic "timeout"))).1.status = "failed" ∧
      countDEv .failed (download_file dtAlice (.fail (.generic "timeout"))).2.1 = 1) ∧
    ((runTask (fun _ => .fail (.diskSpace "full")) tAlice 0).1.status = "failed" ∧
      countEv .failed (runTask (fun _ => .fail (.diskSpace "full")) tAlice 0).2 = 1) := by
  have hsr : should_retry tExhausted.retry_count tExhausted.max_retries
      (.generic "x") = false := rfl
  have hv : validate_media_url dtAlice.story.media_url = .ok () := rfl
  have hst : (download_file dtAlice (.fail (.generic "timeout"))).1.status =
      "failed" := rfl
  have hrt : (runTask (fun _ => .fail (.diskSpace "full")) tAlice 0).1.status =
      "failed" := by
    rw [runTask_disk (fun _ => .fail (.diskSpace "full")) tAlice 0 "full" rfl]
  exact ⟨⟨hsr, error_reporting_amended.2.2.2.1 tExhausted (.generic "x") hsr⟩,
    ⟨hv, (error_reporting_amended.2.2.2.2.2.2 dtAlice "timeout" hv).1⟩,
    ⟨hst, error_reporting_amended.2.2.2.2.2.1 dtAlice (.fail (.generic "timeout")) hst⟩,
    ⟨hrt, (error_reporting_amended.2.2.2.2.1
      (fun _ => .fail (.diskSpace "full")) tAlice).1 hrt⟩⟩

/-!
## C2 — failed aggregate fetch must not end lives (code bug)
-/

/-- C2, evaluated at the failing input: with one live broadcast tracked and
the reels-tray request raising (`.error`), `_get_lives_from_reels_tray`
swallows the exception and returns `[]`, so `LiveMonitorV2.check_all_lives`
never reaches its per-target-fallback `except` clauses; it treats the tick
as "no one is live", removes the tracked broadcast from
`state.active_lives` and emits a spurious `on_live_end` for it — exactly
what the spec rules out for a failed fetch. -/
theorem failed_fetch_wipes_active_lives :
    get_lives_from_reels_tray (.error "ClientConnectionError") = [] ∧
    monPre.active_lives = [("a", bAlice)] ∧
    (check_all_lives_v2 monPre ["alice"] (.error "ClientConnectionError")).1.active_lives
      = [] ∧
    (check_all_lives_v2 monPre ["alice"] (.error "ClientConnectionError")).2.2 =
      [.live_end "a"] :=
  ⟨rfl, rfl, rfl, rfl⟩

end Rakko
